import Mathlib

/-!
Shallow embedding of the OCR name-card pipeline (aht-taiht/OCR-name-card).

The embedding covers the functions the claims talk about:
* `_process_paddleocr_results` (src/app.py:205, src/ocr_namecard/models/namecard.py:242)
* `_combine_all_language_results` (src/app.py:267, src/ocr_namecard/models/namecard.py:308)
* `extract_text` (src/app.py:150) and `_extract_text_from_image` (namecard.py:153)
* `action_process_card` (namecard.py:125)
* `_fallback_text_parsing` (namecard.py:420), with a small backtracking
  regular-expression engine embedding Python `re.findall` first-match semantics
* `_update_from_structured_data` (namecard.py:447)
* `_generate_vcard` (src/ocr_namecard/controllers/main.py:125)

Python strings are modelled as lists of characters (`PyStr`); Python floats as
rationals; raised exceptions as `Except` errors or an explicit "raised message"
component of the result.
-/

/-- Python strings, modelled as lists of characters. -/
abbrev PyStr := List Char

/-- Python `str.strip()`: drop leading and trailing whitespace. -/
def pyStrip (s : PyStr) : PyStr :=
  (s.dropWhile Char.isWhitespace).rdropWhile Char.isWhitespace

/-- Python `str.lower()` (case folding applied to the OCR text). -/
def pyLower (s : PyStr) : PyStr := s.map Char.toLower

/-- Python `str.split()` with no argument: split on whitespace runs, dropping
empty pieces. -/
def pySplit (s : PyStr) : List PyStr :=
  (List.splitOnP Char.isWhitespace s).filter (· ≠ [])

/-- Python `sep.join(xs)`. -/
def pyJoin (sep : PyStr) (xs : List PyStr) : PyStr := List.intercalate sep xs

/-- The three language hypotheses tried by the pipeline (`lang_combo` strings
`'en'`, `'japan'`, `'vi'`). -/
inductive Lang
  | en
  | japan
  | vi
deriving DecidableEq

/-- A bounding box as returned by the OCR backend: a list of points with
rational coordinates (Python floats). -/
abbrev BBox := List (ℚ × ℚ)

/-- A processed OCR text span: the dict
`{'text': ..., 'confidence': ..., 'bbox': ..., 'lang_combo': ...}` built by
`_process_paddleocr_results`. -/
structure Span where
  text : PyStr
  confidence : ℚ
  bbox : BBox
  lang_combo : Lang
deriving DecidableEq

/-- A raw recognized-text entry from the backend: either a
`(text, confidence)` pair (so `isinstance(text_conf, (list, tuple))` with
length at least 2 holds) or a bare text. -/
inductive RawTextConf
  | pair (t : PyStr) (c : ℚ)
  | plain (t : PyStr)
deriving DecidableEq

/-- Raw PaddleOCR output handled by `_process_paddleocr_results`
(namecard.py:242): either the dict format with the parallel arrays
`rec_texts` / `rec_scores` / `rec_boxes`, or the list format
`[[bbox, (text, confidence)], ...]`.  In the list format a `none` item models
an entry with fewer than two elements, which the `len(item) >= 2` guard
silently skips. -/
inductive RawResults
  | dict (rec_texts : List RawTextConf) (rec_scores : List ℚ) (rec_boxes : List BBox)
  | list (items : List (Option (BBox × RawTextConf)))

/-- The confidence threshold literal `0.3` from
`if confidence > 0.3 and text.strip()`. -/
def confThreshold : ℚ := mkRat 3 10

/-- The guarded append of `_process_paddleocr_results` (namecard.py:266-272
and 295-301): the span `{'text': text.strip(), ...}` is appended only when
`confidence > 0.3 and text.strip()`, that is, when the confidence is strictly
above the threshold and the stripped text is non-empty. -/
def processSpan (text : PyStr) (confidence : ℚ) (bbox : BBox) (lang_combo : Lang) :
    Option Span :=
  if confThreshold < confidence ∧ pyStrip text ≠ [] then
    some ⟨pyStrip text, confidence, bbox, lang_combo⟩
  else none

/-- One iteration of the dict-format loop of `_process_paddleocr_results`
(namecard.py:249-275).  The code first indexes `rec_boxes[i]`,
`rec_texts[i]` and `rec_scores[i]`; an `IndexError` is caught by the
per-item `except`, which logs and skips the item (modelled by the `none`
branches).  A `(text, confidence)` pair supplies both values, a bare text
uses the score array. -/
def processDictItem (rec_texts : List RawTextConf) (rec_scores : List ℚ)
    (rec_boxes : List BBox) (lang_combo : Lang) (i : Nat) : Option Span :=
  match rec_boxes[i]?, rec_texts[i]?, rec_scores[i]? with
  | some bbox, some tc, some score =>
    match tc with
    | .pair t c => processSpan t c bbox lang_combo
    | .plain t => processSpan t score bbox lang_combo
  | _, _, _ => none

/-- One iteration of the list-format loop of `_process_paddleocr_results`
(namecard.py:278-304).  Items shorter than two elements (`none`) are skipped;
a bare text (not a `(text, confidence)` pair) gets confidence `1.0`. -/
def processListItem (lang_combo : Lang) (item : Option (BBox × RawTextConf)) :
    Option Span :=
  match item with
  | none => none
  | some (bbox, .pair t c) => processSpan t c bbox lang_combo
  | some (bbox, .plain t) => processSpan t 1 bbox lang_combo

/-- `_process_paddleocr_results(raw_results, lang_combo)` (namecard.py:242,
also src/app.py:205 for the dict branch): normalize raw backend output into
spans, filtering low-confidence and empty-text entries. -/
def process_paddleocr_results (raw : RawResults) (lang_combo : Lang) : List Span :=
  match raw with
  | .dict rec_texts rec_scores rec_boxes =>
    (List.range rec_texts.length).filterMap
      (processDictItem rec_texts rec_scores rec_boxes lang_combo)
  | .list items => items.filterMap (processListItem lang_combo)

/-- The deduplication key of `_combine_all_language_results`:
`item['text'].strip().lower()`. -/
def dedupKey (s : Span) : PyStr := pyLower (pyStrip s.text)

/-- Inner loop of `_combine_all_language_results` (namecard.py:319-328) over
the spans of one hypothesis: the spans appended to `combined_results`, given
the current `seen_texts` set (modelled as a list of keys). -/
def combineSpans (spans : List Span) (seen : List PyStr) : List Span :=
  match spans with
  | [] => []
  | s :: rest =>
    if dedupKey s ∉ seen ∧ dedupKey s ≠ [] then
      s :: combineSpans rest (dedupKey s :: seen)
    else combineSpans rest seen

/-- The `seen_texts` set after the inner loop of
`_combine_all_language_results` has walked `spans`. -/
def seenAfter (spans : List Span) (seen : List PyStr) : List PyStr :=
  match spans with
  | [] => seen
  | s :: rest =>
    if dedupKey s ∉ seen ∧ dedupKey s ≠ [] then
      seenAfter rest (dedupKey s :: seen)
    else seenAfter rest seen

/-- Outer loop of `_combine_all_language_results` (namecard.py:313-328) over
the `(lang_combo, processed_results)` pairs; the `if not processed_results:
continue` skips empty span lists. -/
def combineLoop (results : List (Lang × List Span)) (seen : List PyStr) : List Span :=
  match results with
  | [] => []
  | (_, spans) :: rest =>
    if spans = [] then combineLoop rest seen
    else combineSpans spans seen ++ combineLoop rest (seenAfter spans seen)

/-- The comparison of the final
`combined_results.sort(key=lambda x: x['confidence'], reverse=True)`:
descending by confidence. -/
def confGE (a b : Span) : Prop := b.confidence ≤ a.confidence

instance : DecidableRel confGE :=
  fun a b => inferInstanceAs (Decidable (b.confidence ≤ a.confidence))

/-- `_combine_all_language_results(results)` (namecard.py:308, src/app.py:267):
deduplicate across hypotheses, then sort by confidence descending.  Python's
`list.sort` is stable; it is modelled by the stable insertion sort, which
computes the same list as any stable sort for a total preorder. -/
def combine_all_language_results (results : List (Lang × List Span)) : List Span :=
  List.insertionSort confGE (combineLoop results [])

/-- Outcome of one backend call `reader.ocr(path)` as seen by `extract_text`:
`.error m` models a raised exception (caught and logged for that language),
`.ok none` a falsy result (the `if en_results and en_results[0]` test fails),
`.ok (some raw)` a usable first page. -/
abbrev OcrOutcome := Except PyStr (Option RawResults)

/-- One per-language block of `extract_text` / `_extract_text_from_image`:
the `(lang, processed)` entries appended to `results`.  An exception from the
backend is caught and logged, and processed results are appended only when
non-empty (`if en_processed:`). -/
def tryLang (outcome : OcrOutcome) (lang : Lang) : List (Lang × List Span) :=
  match outcome with
  | .error _ => []
  | .ok none => []
  | .ok (some raw) =>
    let processed := process_paddleocr_results raw lang
    if processed = [] then [] else [(lang, processed)]

/-- `NameCardReader.extract_text` (src/app.py:150): try the three language
backends in order, combine the results; `if not results: return []`.  The
whole body is wrapped in `try/except` returning `[]`, and every backend
exception is already caught per language, so the function is total: it never
propagates an exception to its caller. -/
def extract_text (en japan vi : OcrOutcome) : List Span :=
  let results := tryLang en .en ++ tryLang japan .japan ++ tryLang vi .vi
  if results = [] then []
  else combine_all_language_results results

/-- The message of the `UserError` raised by `_extract_text_from_image`
(namecard.py:160) when no PaddleOCR reader is initialized, as re-wrapped by
the outer `except` (namecard.py:240). -/
def noReaderError : PyStr :=
  ("Failed to extract text from image: PaddleOCR is not properly initialized. " ++
   "Please ensure PaddleOCR and its dependencies are installed:\n\n" ++
   "pip install paddlepaddle paddleocr").data

/-- `NameCard._extract_text_from_image` (namecard.py:153): when no reader is
available (`if not any(readers.values())`), a `UserError` is raised; the
outer `except` re-raises it as `UserError("Failed to extract text from
image: %s" % str(e))`, so the call errors out rather than returning `[]`.
When readers exist, each available language is tried with its exceptions
caught, and `[]` is returned when no language produced results.  (The updates
of `extracted_text` / `extraction_confidence` on the success path are not
needed by the claims and are not modelled.) -/
def extract_text_from_image (readersAvailable : Lang → Bool)
    (ocr : Lang → OcrOutcome) : Except PyStr (List Span) :=
  if !(readersAvailable .en || readersAvailable .japan || readersAvailable .vi) then
    .error noReaderError
  else
    let results :=
      (if readersAvailable .en then tryLang (ocr .en) .en else []) ++
      (if readersAvailable .japan then tryLang (ocr .japan) .japan else []) ++
      (if readersAvailable .vi then tryLang (ocr .vi) .vi else [])
    if results = [] then .ok []
    else .ok (combine_all_language_results results)

/-- The `processing_status` selection field of the `ocr.namecard` model. -/
inductive Status
  | draft
  | processing
  | done
  | error
deriving DecidableEq

/-- The persisted `ocr.namecard` record, restricted to the fields the claims
touch.  Odoo `Char`/`Text` fields are modelled as `PyStr` with `[]` for the
falsy values (`False` or the empty string); the binary `image` field as
`Option PyStr` with `none` for "no image uploaded". -/
structure Record where
  image : Option PyStr := none
  contact_name : PyStr := []
  job_title : PyStr := []
  company_name : PyStr := []
  email : PyStr := []
  phone : PyStr := []
  mobile : PyStr := []
  website : PyStr := []
  address : PyStr := []
  other_info : PyStr := []
  processing_status : Status := .draft
  processing_error : PyStr := []
deriving DecidableEq

/-- One assignment step of `_update_from_structured_data` (namecard.py:461):
`if ai_field in structured_data and structured_data[ai_field]: setattr(...)`.
The structured data is a dict modelled as a lookup function; a value is
written only when the key is present and its value truthy (non-empty). -/
def pyDictUpdate (sd : PyStr → Option PyStr) (key : PyStr) (old : PyStr) : PyStr :=
  match sd key with
  | some v => if v ≠ [] then v else old
  | none => old

/-- `NameCard._update_from_structured_data` (namecard.py:447): write the nine
mapped keys to the corresponding record fields when present and truthy. -/
def update_from_structured_data (r : Record) (sd : PyStr → Option PyStr) : Record :=
  { r with
    contact_name := pyDictUpdate sd "name".data r.contact_name
    job_title := pyDictUpdate sd "title".data r.job_title
    company_name := pyDictUpdate sd "company".data r.company_name
    email := pyDictUpdate sd "email".data r.email
    phone := pyDictUpdate sd "phone".data r.phone
    mobile := pyDictUpdate sd "mobile".data r.mobile
    website := pyDictUpdate sd "website".data r.website
    address := pyDictUpdate sd "address".data r.address
    other_info := pyDictUpdate sd "other".data r.other_info }

/-- `NameCard.action_process_card` (namecard.py:125) on a single record.  The
effectful calls are passed in as outcomes: `extract` is the result of
`_extract_text_from_image` and `ai` the result of `_process_with_ai`
(`.error m` models a raised exception with message `str(e) = m`, here with
the structured data as a dict lookup on success).  The result pairs the
record state after the call with the message of an uncaught exception, if
any: `raise UserError("No image uploaded")` happens before any mutation,
while everything inside the `try` is caught and turned into
`processing_status = 'error'` with `processing_error = str(e)`. -/
def action_process_card (r : Record) (extract : Except PyStr (List Span))
    (ai : Except PyStr (PyStr → Option PyStr)) : Record × Option PyStr :=
  if r.image = none then (r, some "No image uploaded".data)
  else
    let r1 : Record := { r with processing_status := .processing }
    match extract with
    | .error e =>
      ({ r1 with processing_status := .error, processing_error := e }, none)
    | .ok data =>
      if data = [] then
        ({ r1 with processing_status := .error,
                   processing_error := "No text could be extracted from the image".data },
         none)
      else
        match ai with
        | .error e =>
          ({ r1 with processing_status := .error, processing_error := e }, none)
        | .ok sd =>
          ({ update_from_structured_data r1 sd with processing_status := .done }, none)

/-- The `FN` / `N` block of `_generate_vcard` (controllers/main.py:129-136):
emitted only for a truthy `contact_name`; the `N` field splits the name on
whitespace, the last token becoming the family name and the remaining tokens,
joined by spaces, the given name. -/
def vcardNameLines (nc : Record) : List PyStr :=
  if nc.contact_name ≠ [] then
    ("FN:".data ++ nc.contact_name) ::
    (if 2 ≤ (pySplit nc.contact_name).length then
       ["N:".data ++ (pySplit nc.contact_name).getLastD [] ++ ";".data ++
        pyJoin " ".data (pySplit nc.contact_name).dropLast ++ ";;;".data]
     else ["N:".data ++ nc.contact_name ++ ";;;;".data])
  else []

/-- One optional line of `_generate_vcard`: emitted as `label + field + tail`
only when the field is truthy. -/
def vcardOptLine (label : PyStr) (field : PyStr) (tail : PyStr) : List PyStr :=
  if field ≠ [] then [label ++ field ++ tail] else []

/-- `NameCardController._generate_vcard` (controllers/main.py:125): the list
`vcard_lines` right before the final `'\n'.join(vcard_lines)`. -/
def generate_vcard_lines (nc : Record) : List PyStr :=
  ["BEGIN:VCARD".data, "VERSION:3.0".data]
  ++ vcardNameLines nc
  ++ vcardOptLine "ORG:".data nc.company_name []
  ++ vcardOptLine "TITLE:".data nc.job_title []
  ++ vcardOptLine "EMAIL:".data nc.email []
  ++ vcardOptLine "TEL;TYPE=WORK:".data nc.phone []
  ++ vcardOptLine "TEL;TYPE=CELL:".data nc.mobile []
  ++ vcardOptLine "URL:".data nc.website []
  ++ vcardOptLine "ADR;TYPE=WORK:;;".data nc.address ";;;;".data
  ++ vcardOptLine "NOTE:".data nc.other_info []
  ++ ["END:VCARD".data]

/-- `NameCardController._generate_vcard` result: the lines joined with
newlines. -/
def generate_vcard (nc : Record) : PyStr :=
  pyJoin ['\n'] (generate_vcard_lines nc)

/-- One element of a regular-expression pattern, covering the constructs of
the three patterns of `_fallback_text_parsing`: a single character from a
class, a greedy bounded repetition `{lo,hi}` of a character class (`hi =
none` for an unbounded `+`/`{lo,}`), and the word boundary `\b`. -/
inductive RElem
  | chr (p : Char → Bool)
  | rep (p : Char → Bool) (lo : Nat) (hi : Option Nat)
  | wb

/-- Python regex word characters (`\w`), as relevant to the scanned texts. -/
def isWordChar (c : Option Char) : Bool :=
  match c with
  | none => false
  | some c => c.isAlphanum || c = '_'

/-- A word boundary `\b` holds between `prev` and `next` when exactly one of
them is a word character (ends of the string count as non-word). -/
def atBoundary (prev next : Option Char) : Bool :=
  isWordChar prev != isWordChar next

/-- All ways to match a greedy repetition `p{lo,hi}` at the head of `l`, in
backtracking priority order (longest first), each given as the pair of the
character preceding the remaining input and the remaining input. -/
def repCandidates (p : Char → Bool) (lo : Nat) (hi : Option Nat)
    (prev : Option Char) (l : List Char) : List (Option Char × List Char) :=
  let run := l.takeWhile p
  let n := match hi with
    | none => run.length
    | some h => min h run.length
  if lo ≤ n then
    (List.range (n + 1 - lo)).map (fun j =>
      let k := n - j
      ((if k = 0 then prev else run[k-1]?), l.drop k))
  else []

/-- All ways to match one pattern element at the head of `l`, in backtracking
priority order. -/
def matchElem (e : RElem) (prev : Option Char) (l : List Char) :
    List (Option Char × List Char) :=
  match e with
  | .chr p =>
    match l with
    | [] => []
    | c :: cs => if p c then [(some c, cs)] else []
  | .wb => if atBoundary prev l.head? then [(prev, l)] else []
  | .rep p lo hi => repCandidates p lo hi prev l

/-- All ways to match a pattern (a sequence of elements) at the head of `l`,
in backtracking priority order: the head of this list is the match Python's
backtracking engine commits to at this position. -/
def matchSeq (es : List RElem) (prev : Option Char) (l : List Char) :
    List (Option Char × List Char) :=
  match es with
  | [] => [(prev, l)]
  | e :: rest => (matchElem e prev l).flatMap (fun pr => matchSeq rest pr.1 pr.2)

/-- Scan for the leftmost match of a pattern: try each start position from
left to right, keeping track of the preceding character (for `\b`), and
return the matched text of the first position where the pattern matches.
This is the first element of Python's `re.findall` (for patterns without
groups), or `None` when `findall` returns no matches. -/
def searchFrom (es : List RElem) (prev : Option Char) (l : List Char) :
    Option (List Char) :=
  match l with
  | [] =>
    match (matchSeq es prev []).head? with
    | some _ => some []
    | none => none
  | c :: cs =>
    match (matchSeq es prev (c :: cs)).head? with
    | some pr => some ((c :: cs).take ((c :: cs).length - pr.2.length))
    | none => searchFrom es (some c) cs

/-- First match of a pattern in a string (`re.findall(pattern, s)[0]` when a
match exists, `none` otherwise). -/
def reFirstMatch (es : List RElem) (s : PyStr) : Option PyStr :=
  searchFrom es none s

/-- The class `[A-Za-z0-9._%+-]` of the email pattern's local part. -/
def ccEmailLocal (c : Char) : Bool :=
  c.isAlphanum || c = '.' || c = '_' || c = '%' || c = '+' || c = '-'

/-- The class `[A-Za-z0-9.-]` of the email domain and website patterns. -/
def ccDomain (c : Char) : Bool := c.isAlphanum || c = '.' || c = '-'

/-- The class `[A-Z|a-z]` (note the literal `|` inside the class) used by the
email and website patterns. -/
def ccAlphaBar (c : Char) : Bool := c.isUpper || c = '|' || c.isLower

/-- The email pattern of `_fallback_text_parsing` (namecard.py:427):
`\b[A-Za-z0-9._%+-]+@[A-Za-z0-9.-]+\.[A-Z|a-z]{2,}\b`. -/
def email_pattern : List RElem :=
  [.wb, .rep ccEmailLocal 1 none, .chr (· == '@'), .rep ccDomain 1 none,
   .chr (· == '.'), .rep ccAlphaBar 2 none, .wb]

/-- The phone pattern of `_fallback_text_parsing` (namecard.py:433):
`[\+]?[1-9]?[0-9]{7,15}` — note that the `{7,15}` repetition requires at
least seven consecutive digits. -/
def phone_pattern : List RElem :=
  [.rep (· == '+') 0 (some 1), .rep (fun c => c.isDigit && c != '0') 0 (some 1),
   .rep Char.isDigit 7 (some 15)]

/-- The website pattern of `_fallback_text_parsing` (namecard.py:439):
`www\.[A-Za-z0-9.-]+\.[A-Z|a-z]{2,}`. -/
def website_pattern : List RElem :=
  [.chr (· == 'w'), .chr (· == 'w'), .chr (· == 'w'), .chr (· == '.'),
   .rep ccDomain 1 none, .chr (· == '.'), .rep ccAlphaBar 2 none]

/-- The dict built by `_fallback_text_parsing`: each of `email` / `phone` /
`website` is present only when the corresponding `re.findall` found a match;
`other` is always the whole input text. -/
structure FallbackResult where
  email : Option PyStr := none
  phone : Option PyStr := none
  website : Option PyStr := none
  other : PyStr := []
deriving DecidableEq

/-- `NameCard._fallback_text_parsing(text_content)` (namecard.py:420): regex
extraction of the first email, phone and website match, with the full input
stored under `other`. -/
def fallback_text_parsing (text_content : PyStr) : FallbackResult :=
  { email := reFirstMatch email_pattern text_content
    phone := reFirstMatch phone_pattern text_content
    website := reFirstMatch website_pattern text_content
    other := text_content }

instance : IsTotal Span confGE := ⟨fun a b => le_total b.confidence a.confidence⟩

instance : IsTrans Span confGE := ⟨fun _ _ _ hab hbc => le_trans hbc hab⟩

/-- A span whose key duplicates `dedupSpanFirst` but arrives later with a
higher confidence. -/
def dedupSpanLater : Span := ⟨"acme".data, 2, [], .vi⟩

/-- A span seen first in hypothesis iteration order. -/
def dedupSpanFirst : Span := ⟨" Acme".data, 1, [], .en⟩

/-- Two hypotheses yielding spans with the same dedup key. -/
def dedupExampleResults : List (Lang × List Span) :=
  [(.en, [dedupSpanFirst]), (.vi, [dedupSpanLater])]

/-- A list-format raw result with one good span and one below-threshold span. -/
def rawFilterExample : RawResults :=
  .list [some ([], .pair "Hi".data 1), some ([], .pair "low".data 0)]

/-- The span the filter keeps from `rawFilterExample`. -/
def keptSpan : Span := ⟨"Hi".data, 1, [], .en⟩

/-- A record carrying an image, in the draft state. -/
def recordWithImage : Record := { image := some "imagedata".data }

/-- A record with every contact field non-empty. -/
def vcardExampleRecord : Record :=
  { contact_name := "John Smith".data, company_name := "Acme".data,
    job_title := "CEO".data, email := "js@acme.com".data, phone := "123".data,
    mobile := "456".data, website := "www.acme.com".data,
    address := "1 Road".data, other_info := "notes".data }

/-- A structured-data dict with a truthy `name`, an empty `title` and no
other keys. -/
def sdExample : PyStr → Option PyStr :=
  fun k =>
    if k = "name".data then some "Jane Doe".data
    else if k = "title".data then some [] else none

/-- A record with prior values in the fields `sdExample` touches. -/
def recordBefore : Record :=
  { contact_name := "Old Name".data, job_title := "Keep Title".data,
    company_name := "Keep Co".data }

lemma mem_combineSpans {l : List Span} {seen : List PyStr} {x : Span}
    (hx : x ∈ combineSpans l seen) : dedupKey x ∉ seen ∧ dedupKey x ≠ [] := by
  induction l generalizing seen with
  | nil => simp [combineSpans] at hx
  | cons s rest ih =>
    rw [combineSpans] at hx
    split at hx
    · rename_i h
      rcases List.mem_cons.mp hx with rfl | hx'
      · exact h
      · have h2 := ih hx'
        exact ⟨fun hm => h2.1 (List.mem_cons_of_mem _ hm), h2.2⟩
    · exact ih hx

lemma pairwise_combineSpans (l : List Span) (seen : List PyStr) :
    List.Pairwise (fun a b => dedupKey a ≠ dedupKey b) (combineSpans l seen) := by
  induction l generalizing seen with
  | nil => simp [combineSpans]
  | cons s rest ih =>
    rw [combineSpans]
    split
    · refine List.Pairwise.cons (fun y hy => ?_) (ih _)
      have h2 := (mem_combineSpans hy).1
      exact fun he => h2 (by simp [← he])
    · exact ih _

lemma find?_combineSpans {l : List Span} {seen : List PyStr} {x : Span}
    (hx : x ∈ combineSpans l seen) :
    l.find? (fun y => dedupKey y == dedupKey x) = some x := by
  induction l generalizing seen with
  | nil => simp [combineSpans] at hx
  | cons s rest ih =>
    rw [combineSpans] at hx
    split at hx
    · rename_i hcond
      rcases List.mem_cons.mp hx with rfl | hx'
      · simp [List.find?]
      · have hk := mem_combineSpans hx'
        have hb : (dedupKey s == dedupKey x) = false :=
          beq_eq_false_iff_ne.mpr (fun he => hk.1 (by simp [← he]))
        rw [List.find?_cons]
        simp only [hb]
        exact ih hx'
    · rename_i hcond
      have hk := mem_combineSpans hx
      have hb : (dedupKey s == dedupKey x) = false :=
        beq_eq_false_iff_ne.mpr (fun he => hcond ⟨he ▸ hk.1, he ▸ hk.2⟩)
      rw [List.find?_cons]
      simp only [hb]
      exact ih hx

lemma exists_combineSpans {l : List Span} {seen : List PyStr} {y : Span}
    (hy : y ∈ l) (hk : dedupKey y ≠ []) :
    dedupKey y ∈ seen ∨ ∃ x ∈ combineSpans l seen, dedupKey x = dedupKey y := by
  induction l generalizing seen with
  | nil => cases hy
  | cons s rest ih =>
    rw [combineSpans]
    rcases List.mem_cons.mp hy with rfl | hy'
    · by_cases hc : dedupKey y ∉ seen ∧ dedupKey y ≠ []
      · right
        rw [if_pos hc]
        exact ⟨y, List.mem_cons_self _ _, rfl⟩
      · left
        rcases not_and_or.mp hc with h | h
        · simpa using h
        · exact absurd hk h
    · by_cases hc : dedupKey s ∉ seen ∧ dedupKey s ≠ []
      · rw [if_pos hc]
        rcases @ih (dedupKey s :: seen) hy' with hin | ⟨x, hx, he⟩
        · rcases List.mem_cons.mp hin with he | hm
          · right
            exact ⟨s, List.mem_cons_self _ _, he.symm⟩
          · left; exact hm
        · right
          exact ⟨x, List.mem_cons_of_mem _ hx, he⟩
      · rw [if_neg hc]
        exact ih hy'

lemma combineSpans_append (xs ys : List Span) (seen : List PyStr) :
    combineSpans (xs ++ ys) seen =
      combineSpans xs seen ++ combineSpans ys (seenAfter xs seen) := by
  induction xs generalizing seen with
  | nil => simp [combineSpans, seenAfter]
  | cons s rest ih =>
    rw [List.cons_append, combineSpans, combineSpans, seenAfter]
    split
    · simp [ih]
    · exact ih seen

lemma combineLoop_eq_combineSpans (results : List (Lang × List Span)) (seen : List PyStr) :
    combineLoop results seen = combineSpans ((results.map Prod.snd).flatten) seen := by
  induction results generalizing seen with
  | nil => simp [combineLoop, combineSpans]
  | cons p rest ih =>
    obtain ⟨lang, spans⟩ := p
    rw [combineLoop]
    split
    · rename_i h
      simp [h, ih]
    · rw [List.map_cons, List.flatten_cons, combineSpans_append, ih]

lemma combineLoop_skip_empty (pre post : List (Lang × List Span)) (lang : Lang)
    (seen : List PyStr) :
    combineLoop (pre ++ (lang, []) :: post) seen = combineLoop (pre ++ post) seen := by
  induction pre generalizing seen with
  | nil => rw [List.nil_append, combineLoop, if_pos rfl, List.nil_append]
  | cons p rest ih =>
    obtain ⟨l0, sp⟩ := p
    rw [List.cons_append, combineLoop, List.cons_append, combineLoop]
    split
    · exact ih seen
    · rw [ih]

lemma combineLoop_all_empty (results : List (Lang × List Span))
    (h : ∀ p ∈ results, p.2 = ([] : List Span)) (seen : List PyStr) :
    combineLoop results seen = [] := by
  induction results generalizing seen with
  | nil => rfl
  | cons p rest ih =>
    obtain ⟨l0, sp⟩ := p
    rw [combineLoop, if_pos (h _ (List.mem_cons_self _ _))]
    exact ih (fun q hq => h q (List.mem_cons_of_mem _ hq)) seen



/-- C2: in the merged result no two elements have equal trimmed lower-cased
text (`dedupKey`), every merged element is the first span with its key in
hypothesis iteration order (the `find?` over the concatenated inputs returns
exactly it, regardless of any later duplicate's confidence), and every input
span with a non-empty key is represented in the output. -/
theorem combine_dedup_first_occurrence (results : List (Lang × List Span)) :
    List.Pairwise (fun a b => dedupKey a ≠ dedupKey b)
      (combine_all_language_results results) ∧
    (∀ x ∈ combine_all_language_results results,
      ((results.map Prod.snd).flatten).find? (fun y => dedupKey y == dedupKey x)
        = some x) ∧
    (∀ y ∈ (results.map Prod.snd).flatten, dedupKey y ≠ [] →
      ∃ x ∈ combine_all_language_results results, dedupKey x = dedupKey y) := by
  have hperm := List.perm_insertionSort confGE (combineLoop results [])
  refine ⟨?_, ?_, ?_⟩
  · have hp := pairwise_combineSpans ((results.map Prod.snd).flatten) []
    rw [← combineLoop_eq_combineSpans] at hp
    exact (hperm.pairwise_iff (fun h he => h he.symm)).mpr hp
  · intro x hx
    have hx' : x ∈ combineLoop results [] := hperm.mem_iff.mp hx
    rw [combineLoop_eq_combineSpans] at hx'
    exact find?_combineSpans hx'
  · intro y hy hk
    rcases @exists_combineSpans _ [] _ hy hk with hin | ⟨x, hx, he⟩
    · cases hin
    · refine ⟨x, ?_, he⟩
      rw [combine_all_language_results]
      rw [combineLoop_eq_combineSpans]
      exact (List.perm_insertionSort confGE _).mem_iff.mpr hx

/-- C7: the merged result is ordered descending by confidence. -/
theorem combine_sorted_desc (results : List (Lang × List Span)) :
    List.Pairwise (fun a b : Span => b.confidence ≤ a.confidence)
      (combine_all_language_results results) :=
  List.sorted_insertionSort confGE (combineLoop results [])

/-- C8: merging no hypotheses yields the empty result; a hypothesis with an
empty span list can be removed without changing the output; and when every
hypothesis yields nothing the merge returns the empty result (no error). -/
theorem combine_empty_hypotheses :
    combine_all_language_results [] = [] ∧
    (∀ (pre post : List (Lang × List Span)) (lang : Lang),
      combine_all_language_results (pre ++ (lang, []) :: post) =
        combine_all_language_results (pre ++ post)) ∧
    (∀ results : List (Lang × List Span), (∀ p ∈ results, p.2 = ([] : List Span)) →
      combine_all_language_results results = []) := by
  refine ⟨rfl, ?_, ?_⟩
  · intro pre post lang
    rw [combine_all_language_results, combine_all_language_results,
      combineLoop_skip_empty]
  · intro results h
    rw [combine_all_language_results, combineLoop_all_empty results h]
    rfl

lemma dropWhile_eq_self_of_front {p : Char → Bool} {u m : List Char}
    (hm : m.dropWhile p = m) (hu : u <+: m) : u.dropWhile p = u := by
  cases u with
  | nil => rfl
  | cons a u' =>
    obtain ⟨t, ht⟩ := hu
    rw [List.cons_append] at ht
    have hpa : p a = false := by
      by_contra hcon
      have hpa : p a = true := by simpa using hcon
      rw [← ht, List.dropWhile_cons_of_pos hpa] at hm
      have hlen := ((List.dropWhile_sublist p).length_le :
        ((u' ++ t).dropWhile p).length ≤ (u' ++ t).length)
      rw [hm] at hlen
      simp at hlen
    rw [List.dropWhile_cons_of_neg (by simp [hpa])]

lemma pyStrip_idem (l : PyStr) : pyStrip (pyStrip l) = pyStrip l := by
  rw [pyStrip, pyStrip]
  rw [dropWhile_eq_self_of_front (List.dropWhile_idempotent _ _)
    ( List.rdropWhile_prefix _ _)]
  rw [List.rdropWhile_idempotent]

lemma processSpan_some {t : PyStr} {c : ℚ} {bbox : BBox} {lang : Lang} {s : Span}
    (h : processSpan t c bbox lang = some s) :
    confThreshold < s.confidence ∧ pyStrip s.text ≠ [] := by
  rw [processSpan] at h
  split at h
  · rename_i hcond
    obtain rfl := Option.some_inj.mp h
    exact ⟨hcond.1, by rw [pyStrip_idem]; exact hcond.2⟩
  · cases h

/-- C4: every span in the adapter output has confidence strictly above the
`0.3` threshold and a non-empty trimmed text; equivalently, a raw span at or
below the threshold, or with empty trimmed text, never appears in the output
of `_process_paddleocr_results` (either backend format). -/
theorem process_paddleocr_results_filters (raw : RawResults) (lang : Lang) :
    ∀ s ∈ process_paddleocr_results raw lang,
      confThreshold < s.confidence ∧ pyStrip s.text ≠ [] := by
  intro s hs
  cases raw with
  | dict ts ss bs =>
    rw [process_paddleocr_results] at hs
    obtain ⟨i, _, hi⟩ := List.mem_filterMap.mp hs
    rw [processDictItem.eq_def] at hi
    split at hi
    · split at hi
      · exact processSpan_some hi
      · exact processSpan_some hi
    · cases hi
  | list items =>
    rw [process_paddleocr_results] at hs
    obtain ⟨item, _, hi⟩ := List.mem_filterMap.mp hs
    rw [processListItem.eq_def] at hi
    split at hi
    · cases hi
    · exact processSpan_some hi
    · exact processSpan_some hi

/-- C3 counterexample: in the host-integrated variant, when no OCR reader is
available `_extract_text_from_image` raises a `UserError` to its caller
instead of returning an empty sequence. -/
theorem extract_text_from_image_raises_when_no_reader :
    extract_text_from_image (fun _ => false) (fun _ => .ok none) =
      .error noReaderError := rfl

/-- C3 (amended): the standalone reader's `extract_text` returns an empty
sequence (and never raises) when every backend call fails; the
host-integrated `_extract_text_from_image` instead raises a `UserError` when
no reader is initialized, and returns an empty list only when at least one
reader exists and every backend call raises. -/
theorem extract_backend_failure_behaviour :
    (∀ a b c : PyStr, extract_text (.error a) (.error b) (.error c) = []) ∧
    (∀ ocr : Lang → OcrOutcome,
      extract_text_from_image (fun _ => false) ocr = .error noReaderError) ∧
    (∀ (ra : Lang → Bool) (ocr : Lang → OcrOutcome),
      (ra .en || ra .japan || ra .vi) = true →
      (∀ l, ∃ m, ocr l = .error m) →
      extract_text_from_image ra ocr = .ok []) := by
  refine ⟨?_, ?_, ?_⟩
  · intro a b c
    rfl
  · intro ocr
    rfl
  · intro ra ocr h1 h2
    rw [extract_text_from_image]
    rw [if_neg (by simp [h1])]
    obtain ⟨me, hme⟩ := h2 .en
    obtain ⟨mj, hmj⟩ := h2 .japan
    obtain ⟨mv, hmv⟩ := h2 .vi
    simp [hme, hmj, hmv, tryLang]

/-- C5: invoking the process action on a record without an image raises
`UserError("No image uploaded")` before any mutation: the record (and in
particular its processing status) is unchanged. -/
theorem action_process_card_no_image (r : Record)
    (extract : Except PyStr (List Span)) (ai : Except PyStr (PyStr → Option PyStr))
    (h : r.image = none) :
    (action_process_card r extract ai).2 = some "No image uploaded".data ∧
    (action_process_card r extract ai).1 = r := by
  rw [action_process_card, if_pos h]
  exact ⟨rfl, rfl⟩

/-- C6: with an image present, an empty extraction result transitions the
record to status `error` with a message containing "No text could be
extracted", and an exception raised during extraction or AI processing
transitions it to `error` with the exception message stored verbatim. -/
theorem action_process_card_error_paths (r : Record)
    (extract : Except PyStr (List Span)) (ai : Except PyStr (PyStr → Option PyStr))
    (himg : r.image ≠ none) :
    (extract = .ok [] →
      (action_process_card r extract ai).1.processing_status = .error ∧
      "No text could be extracted".data <:+:
        (action_process_card r extract ai).1.processing_error) ∧
    (∀ m, extract = .error m →
      (action_process_card r extract ai).1.processing_status = .error ∧
      (action_process_card r extract ai).1.processing_error = m) ∧
    (∀ m data, extract = .ok data → data ≠ [] → ai = .error m →
      (action_process_card r extract ai).1.processing_status = .error ∧
      (action_process_card r extract ai).1.processing_error = m) := by
  refine ⟨?_, ?_, ?_⟩
  · rintro rfl
    rw [action_process_card, if_neg himg]
    refine ⟨rfl, ?_⟩
    show "No text could be extracted".data <:+:
      "No text could be extracted from the image".data
    decide
  · rintro m rfl
    rw [action_process_card, if_neg himg]
    exact ⟨rfl, rfl⟩
  · rintro m data rfl hne rfl
    rw [action_process_card, if_neg himg]
    dsimp only
    rw [if_neg hne]
    exact ⟨rfl, rfl⟩

lemma pyDictUpdate_of_absent_or_empty {sd : PyStr → Option PyStr} {key old : PyStr}
    (h : sd key = none ∨ sd key = some []) : pyDictUpdate sd key old = old := by
  rcases h with h | h <;> simp [pyDictUpdate, h]

lemma pyDictUpdate_of_truthy {sd : PyStr → Option PyStr} {key old v : PyStr}
    (h : sd key = some v) (hv : v ≠ []) : pyDictUpdate sd key old = v := by
  simp [pyDictUpdate, h, hv]

/-- C10: updating from structured data writes exactly the nine mapped keys
that are present with a truthy (non-empty) value; an absent or empty value
leaves the field at its prior value, and all other record fields (image,
processing status, processing error) are untouched. -/
theorem update_from_structured_data_frame (r : Record) (sd : PyStr → Option PyStr) :
    ((update_from_structured_data r sd).image = r.image ∧
     (update_from_structured_data r sd).processing_status = r.processing_status ∧
     (update_from_structured_data r sd).processing_error = r.processing_error) ∧
    ((sd "name".data = none ∨ sd "name".data = some [] →
        (update_from_structured_data r sd).contact_name = r.contact_name) ∧
     (∀ v, sd "name".data = some v → v ≠ [] →
        (update_from_structured_data r sd).contact_name = v)) ∧
    ((sd "title".data = none ∨ sd "title".data = some [] →
        (update_from_structured_data r sd).job_title = r.job_title) ∧
     (∀ v, sd "title".data = some v → v ≠ [] →
        (update_from_structured_data r sd).job_title = v)) ∧
    ((sd "company".data = none ∨ sd "company".data = some [] →
        (update_from_structured_data r sd).company_name = r.company_name) ∧
     (∀ v, sd "company".data = some v → v ≠ [] →
        (update_from_structured_data r sd).company_name = v)) ∧
    ((sd "email".data = none ∨ sd "email".data = some [] →
        (update_from_structured_data r sd).email = r.email) ∧
     (∀ v, sd "email".data = some v → v ≠ [] →
        (update_from_structured_data r sd).email = v)) ∧
    ((sd "phone".data = none ∨ sd "phone".data = some [] →
        (update_from_structured_data r sd).phone = r.phone) ∧
     (∀ v, sd "phone".data = some v → v ≠ [] →
        (update_from_structured_data r sd).phone = v)) ∧
    ((sd "mobile".data = none ∨ sd "mobile".data = some [] →
        (update_from_structured_data r sd).mobile = r.mobile) ∧
     (∀ v, sd "mobile".data = some v → v ≠ [] →
        (update_from_structured_data r sd).mobile = v)) ∧
    ((sd "website".data = none ∨ sd "website".data = some [] →
        (update_from_structured_data r sd).website = r.website) ∧
     (∀ v, sd "website".data = some v → v ≠ [] →
        (update_from_structured_data r sd).website = v)) ∧
    ((sd "address".data = none ∨ sd "address".data = some [] →
        (update_from_structured_data r sd).address = r.address) ∧
     (∀ v, sd "address".data = some v → v ≠ [] →
        (update_from_structured_data r sd).address = v)) ∧
    ((sd "other".data = none ∨ sd "other".data = some [] →
        (update_from_structured_data r sd).other_info = r.other_info) ∧
     (∀ v, sd "other".data = some v → v ≠ [] →
        (update_from_structured_data r sd).other_info = v)) :=
  ⟨⟨rfl, rfl, rfl⟩,
   ⟨fun h => pyDictUpdate_of_absent_or_empty h,
    fun _ h hv => pyDictUpdate_of_truthy h hv⟩,
   ⟨fun h => pyDictUpdate_of_absent_or_empty h,
    fun _ h hv => pyDictUpdate_of_truthy h hv⟩,
   ⟨fun h => pyDictUpdate_of_absent_or_empty h,
    fun _ h hv => pyDictUpdate_of_truthy h hv⟩,
   ⟨fun h => pyDictUpdate_of_absent_or_empty h,
    fun _ h hv => pyDictUpdate_of_truthy h hv⟩,
   ⟨fun h => pyDictUpdate_of_absent_or_empty h,
    fun _ h hv => pyDictUpdate_of_truthy h hv⟩,
   ⟨fun h => pyDictUpdate_of_absent_or_empty h,
    fun _ h hv => pyDictUpdate_of_truthy h hv⟩,
   ⟨fun h => pyDictUpdate_of_absent_or_empty h,
    fun _ h hv => pyDictUpdate_of_truthy h hv⟩,
   ⟨fun h => pyDictUpdate_of_absent_or_empty h,
    fun _ h hv => pyDictUpdate_of_truthy h hv⟩,
   ⟨fun h => pyDictUpdate_of_absent_or_empty h,
    fun _ h hv => pyDictUpdate_of_truthy h hv⟩⟩

lemma mem_vcardOptLine {label field tail l : PyStr}
    (h : l ∈ vcardOptLine label field tail) :
    l = label ++ (field ++ tail) ∧ field ≠ [] := by
  rw [vcardOptLine] at h
  split at h
  · rename_i hf
    rcases List.mem_singleton.mp h with rfl
    exact ⟨by rw [List.append_assoc], hf⟩
  · cases h

lemma mem_vcardNameLines {nc : Record} {l : PyStr} (h : l ∈ vcardNameLines nc) :
    ((∃ x, l = "FN:".data ++ x) ∨ (∃ x, l = "N:".data ++ x)) ∧
      nc.contact_name ≠ [] := by
  rw [vcardNameLines] at h
  split at h
  · rename_i hc
    rcases List.mem_cons.mp h with rfl | h'
    · exact ⟨.inl ⟨_, rfl⟩, hc⟩
    · refine ⟨.inr ?_, hc⟩
      split at h'
      · rcases List.mem_singleton.mp h' with rfl
        exact ⟨(pySplit nc.contact_name).getLastD [] ++ ";".data ++
          pyJoin " ".data (pySplit nc.contact_name).dropLast ++ ";;;".data,
          by simp [List.append_assoc]⟩
      · rcases List.mem_singleton.mp h' with rfl
        exact ⟨nc.contact_name ++ ";;;;".data, by simp [List.append_assoc]⟩
  · cases h

lemma not_prefix_of_incomparable {pre label rest : PyStr}
    (h1 : ¬ pre <+: label) (h2 : ¬ label <+: pre) : ¬ pre <+: label ++ rest := by
  intro h
  have h3 : label <+: label ++ rest := List.prefix_append _ _
  rcases List.prefix_or_prefix_of_prefix h h3 with hc | hc
  · exact h1 hc
  · exact h2 hc

/-- C9: for a record with contact name "John Smith" the vCard contains both
the line `FN:John Smith` and the line `N:Smith;John;;;`; and for every
record, each optional line (identified by its label prefix) appears only if
the corresponding record field is non-empty. -/
theorem generate_vcard_lines_spec (nc : Record) :
    (nc.contact_name = "John Smith".data →
      "FN:John Smith".data ∈ generate_vcard_lines nc ∧
      "N:Smith;John;;;".data ∈ generate_vcard_lines nc) ∧
    (∀ l ∈ generate_vcard_lines nc,
      ("FN:".data <+: l → nc.contact_name ≠ []) ∧
      ("N:".data <+: l → nc.contact_name ≠ []) ∧
      ("ORG:".data <+: l → nc.company_name ≠ []) ∧
      ("TITLE:".data <+: l → nc.job_title ≠ []) ∧
      ("EMAIL:".data <+: l → nc.email ≠ []) ∧
      ("TEL;TYPE=WORK:".data <+: l → nc.phone ≠ []) ∧
      ("TEL;TYPE=CELL:".data <+: l → nc.mobile ≠ []) ∧
      ("URL:".data <+: l → nc.website ≠ []) ∧
      ("ADR;TYPE=WORK:".data <+: l → nc.address ≠ []) ∧
      ("NOTE:".data <+: l → nc.other_info ≠ [])) := by
  constructor
  · intro h
    have hname : vcardNameLines nc =
        ["FN:John Smith".data, "N:Smith;John;;;".data] := by
      simp only [vcardNameLines, h]
      decide
    constructor
    · rw [generate_vcard_lines, hname]
      simp
    · rw [generate_vcard_lines, hname]
      simp
  · intro l hl
    rw [generate_vcard_lines] at hl
    simp only [List.append_assoc] at hl
    rcases List.mem_append.mp hl with h0 | hl
    · simp only [List.mem_cons, List.mem_singleton, List.not_mem_nil,
        or_false] at h0
      rcases h0 with rfl | rfl <;>
        exact ⟨fun hp => absurd hp (by decide), fun hp => absurd hp (by decide),
          fun hp => absurd hp (by decide), fun hp => absurd hp (by decide),
          fun hp => absurd hp (by decide), fun hp => absurd hp (by decide),
          fun hp => absurd hp (by decide), fun hp => absurd hp (by decide),
          fun hp => absurd hp (by decide), fun hp => absurd hp (by decide)⟩
    rcases List.mem_append.mp hl with hb | hl
    · obtain ⟨hshape, hc⟩ := mem_vcardNameLines hb
      rcases hshape with ⟨x, rfl⟩ | ⟨x, rfl⟩ <;>
        refine ⟨?_, ?_, ?_, ?_, ?_, ?_, ?_, ?_, ?_, ?_⟩ <;>
          first
            | (intro hp;
               exact absurd hp (not_prefix_of_incomparable (by decide) (by decide)))
            | (intro _; exact hc)
    rcases List.mem_append.mp hl with hb | hl
    · obtain ⟨rfl, hf⟩ := mem_vcardOptLine hb
      refine ⟨?_, ?_, ?_, ?_, ?_, ?_, ?_, ?_, ?_, ?_⟩ <;>
        first
          | (intro hp;
             exact absurd hp (not_prefix_of_incomparable (by decide) (by decide)))
          | (intro _; exact hf)
    rcases List.mem_append.mp hl with hb | hl
    · obtain ⟨rfl, hf⟩ := mem_vcardOptLine hb
      refine ⟨?_, ?_, ?_, ?_, ?_, ?_, ?_, ?_, ?_, ?_⟩ <;>
        first
          | (intro hp;
             exact absurd hp (not_prefix_of_incomparable (by decide) (by decide)))
          | (intro _; exact hf)
    rcases List.mem_append.mp hl with hb | hl
    · obtain ⟨rfl, hf⟩ := mem_vcardOptLine hb
      refine ⟨?_, ?_, ?_, ?_, ?_, ?_, ?_, ?_, ?_, ?_⟩ <;>
        first
          | (intro hp;
             exact absurd hp (not_prefix_of_incomparable (by decide) (by decide)))
          | (intro _; exact hf)
    rcases List.mem_append.mp hl with hb | hl
    · obtain ⟨rfl, hf⟩ := mem_vcardOptLine hb
      refine ⟨?_, ?_, ?_, ?_, ?_, ?_, ?_, ?_, ?_, ?_⟩ <;>
        first
          | (intro hp;
             exact absurd hp (not_prefix_of_incomparable (by decide) (by decide)))
          | (intro _; exact hf)
    rcases List.mem_append.mp hl with hb | hl
    · obtain ⟨rfl, hf⟩ := mem_vcardOptLine hb
      refine ⟨?_, ?_, ?_, ?_, ?_, ?_, ?_, ?_, ?_, ?_⟩ <;>
        first
          | (intro hp;
             exact absurd hp (not_prefix_of_incomparable (by decide) (by decide)))
          | (intro _; exact hf)
    rcases List.mem_append.mp hl with hb | hl
    · obtain ⟨rfl, hf⟩ := mem_vcardOptLine hb
      refine ⟨?_, ?_, ?_, ?_, ?_, ?_, ?_, ?_, ?_, ?_⟩ <;>
        first
          | (intro hp;
             exact absurd hp (not_prefix_of_incomparable (by decide) (by decide)))
          | (intro _; exact hf)
    rcases List.mem_append.mp hl with hb | hl
    · obtain ⟨rfl, hf⟩ := mem_vcardOptLine hb
      refine ⟨?_, ?_, ?_, ?_, ?_, ?_, ?_, ?_, ?_, ?_⟩ <;>
        first
          | (intro hp;
             exact absurd hp (not_prefix_of_incomparable (by decide) (by decide)))
          | (intro _; exact hf)
    rcases List.mem_append.mp hl with hb | hl
    · obtain ⟨rfl, hf⟩ := mem_vcardOptLine hb
      refine ⟨?_, ?_, ?_, ?_, ?_, ?_, ?_, ?_, ?_, ?_⟩ <;>
        first
          | (intro hp;
             exact absurd hp (not_prefix_of_incomparable (by decide) (by decide)))
          | (intro _; exact hf)
    · simp only [List.mem_singleton] at hl
      subst hl
      exact ⟨fun hp => absurd hp (by decide), fun hp => absurd hp (by decide),
        fun hp => absurd hp (by decide), fun hp => absurd hp (by decide),
        fun hp => absurd hp (by decide), fun hp => absurd hp (by decide),
        fun hp => absurd hp (by decide), fun hp => absurd hp (by decide),
        fun hp => absurd hp (by decide), fun hp => absurd hp (by decide)⟩

set_option maxRecDepth 10000

/-- C1: evaluation of the regex fallback parser at the spec's test input.
Email and website are extracted and `other` holds the whole input, but *no*
phone is extracted: the phone pattern `[\+]?[1-9]?[0-9]{7,15}` requires at
least seven consecutive digits, and `+1-555-0123` contains none (its longest
digit run is `0123`), so `re.findall` returns no phones and the result dict
has no `phone` key — contradicting the spec and the repository's own test
`test_fallback_text_parsing`. -/
theorem fallback_text_parsing_at_test_input :
    fallback_text_parsing
      "John Smith john.smith@techcorp.com +1-555-0123 www.techcorp.com Other info".data
    = { email := some "john.smith@techcorp.com".data
        phone := none
        website := some "www.techcorp.com".data
        other := "John Smith john.smith@techcorp.com +1-555-0123 www.techcorp.com Other info".data } := by
  decide


theorem combine_dedup_first_occurrence_witness :
    dedupSpanFirst ∈ combine_all_language_results dedupExampleResults ∧
    ((dedupExampleResults.map Prod.snd).flatten).find?
      (fun y => dedupKey y == dedupKey dedupSpanFirst) = some dedupSpanFirst :=
  ⟨by decide,
   (combine_dedup_first_occurrence dedupExampleResults).2.1 dedupSpanFirst (by decide)⟩

theorem combine_empty_hypotheses_witness :
    (∀ p ∈ ([(Lang.en, []), (Lang.vi, [])] : List (Lang × List Span)),
      p.2 = ([] : List Span)) ∧
    combine_all_language_results [(Lang.en, []), (Lang.vi, [])] = [] :=
  ⟨by decide,
   combine_empty_hypotheses.2.2 [(Lang.en, []), (Lang.vi, [])] (by decide)⟩

theorem extract_backend_failure_behaviour_witness :
    (((fun _ : Lang => true) Lang.en || (fun _ : Lang => true) Lang.japan ||
        (fun _ : Lang => true) Lang.vi) = true) ∧
    extract_text_from_image (fun _ => true) (fun _ => .error "boom".data) = .ok [] :=
  ⟨rfl,
   extract_backend_failure_behaviour.2.2 (fun _ => true)
     (fun _ => .error "boom".data) rfl (fun _ => ⟨"boom".data, rfl⟩)⟩


theorem process_paddleocr_results_filters_witness :
    keptSpan ∈ process_paddleocr_results rawFilterExample .en ∧
    (confThreshold < keptSpan.confidence ∧ pyStrip keptSpan.text ≠ []) :=
  ⟨by decide,
   process_paddleocr_results_filters rawFilterExample .en keptSpan (by decide)⟩

theorem action_process_card_no_image_witness :
    (action_process_card {} (.ok []) (.ok fun _ => none)).2 =
      some "No image uploaded".data ∧
    (action_process_card {} (.ok []) (.ok fun _ => none)).1 = {} :=
  action_process_card_no_image {} (.ok []) (.ok fun _ => none) rfl


theorem action_process_card_error_paths_witness :
    (action_process_card recordWithImage (.ok []) (.ok fun _ => none)).1.processing_status
        = .error ∧
    "No text could be extracted".data <:+:
      (action_process_card recordWithImage (.ok []) (.ok fun _ => none)).1.processing_error :=
  (action_process_card_error_paths recordWithImage (.ok []) (.ok fun _ => none)
    (by decide)).1 rfl


theorem generate_vcard_lines_spec_witness :
    ("FN:John Smith".data ∈ generate_vcard_lines vcardExampleRecord ∧
     "N:Smith;John;;;".data ∈ generate_vcard_lines vcardExampleRecord) ∧
    vcardExampleRecord.company_name ≠ [] :=
  ⟨(generate_vcard_lines_spec vcardExampleRecord).1 rfl,
   ((generate_vcard_lines_spec vcardExampleRecord).2 "ORG:Acme".data
     (by decide)).2.2.1 (by decide)⟩


theorem update_from_structured_data_frame_witness :
    (update_from_structured_data recordBefore sdExample).processing_status =
      recordBefore.processing_status ∧
    (update_from_structured_data recordBefore sdExample).job_title =
      recordBefore.job_title ∧
    (update_from_structured_data recordBefore sdExample).company_name =
      recordBefore.company_name ∧
    (update_from_structured_data recordBefore sdExample).contact_name =
      "Jane Doe".data :=
  ⟨(update_from_structured_data_frame recordBefore sdExample).1.2.1,
   (update_from_structured_data_frame recordBefore sdExample).2.2.1.1
     (Or.inr (by decide)),
   (update_from_structured_data_frame recordBefore sdExample).2.2.2.1.1
     (Or.inl (by decide)),
   (update_from_structured_data_frame recordBefore sdExample).2.1.2
     "Jane Doe".data (by decide) (by decide)⟩
